import Mathlib

/-!
Shallow embedding of `src/libs/portable/build.rs`, the platform-conditional
resource-embedding build script of OFARCHDesk.

The script, on Windows targets only, builds a `winres::WindowsResource`
descriptor (icon path, language id, manifest path, four string metadata
entries), submits it to the external resource-compilation step, and on
failure writes the error to stderr (unwrapping the write result) and exits
the process with code 1.  On non-Windows targets the whole block is
compiled out.

The external `winres` crate and the `winapi` constants are not part of this
repository; the parts of their behaviour that the claims depend on are
modelled from the specification and marked as such in doc comments.
-/

namespace BuildRs

/-- Target platform of the build, the condition tested by `#[cfg(windows)]`. -/
inductive Platform
  | windows
  | other
deriving DecidableEq, Repr

/-- Modelled from the spec: the `winres::WindowsResource` descriptor as used by
the build script, carrying an icon file path, a language/locale identifier, a
manifest file path, and an ordered mapping of string metadata keys to string
values. -/
structure WindowsResource where
  icon : Option String
  languageId : Nat
  manifestFile : Option String
  properties : List (String × String)
deriving DecidableEq, Repr

/-- Modelled from the spec: a fresh descriptor before any field is set
(`winres::WindowsResource::new()`). -/
def WindowsResource.new : WindowsResource :=
  { icon := none, languageId := 0, manifestFile := none, properties := [] }

/-- `.set_icon(path)` of `winres`: records the icon file path. -/
def WindowsResource.set_icon (r : WindowsResource) (p : String) : WindowsResource :=
  { r with icon := some p }

/-- `.set_language(id)` of `winres`: records the language identifier. -/
def WindowsResource.set_language (r : WindowsResource) (l : Nat) : WindowsResource :=
  { r with languageId := l }

/-- `.set_manifest_file(path)` of `winres`: records the manifest file path. -/
def WindowsResource.set_manifest_file (r : WindowsResource) (p : String) : WindowsResource :=
  { r with manifestFile := some p }

/-- Modelled from the spec: `.set(key, value)` records one metadata entry in
the ordered mapping, replacing the value in place when the key is already
present and appending the entry otherwise. -/
def WindowsResource.set (r : WindowsResource) (k v : String) : WindowsResource :=
  if r.properties.any (fun kv => kv.1 = k) then
    { r with properties := r.properties.map (fun kv => if kv.1 = k then (k, v) else kv) }
  else
    { r with properties := r.properties ++ [(k, v)] }

/-- The `winapi` primary language code `LANG_ENGLISH`. -/
def LANG_ENGLISH : Nat := 0x09

/-- The `winapi` regional sub-code `SUBLANG_ENGLISH_US`. -/
def SUBLANG_ENGLISH_US : Nat := 0x01

/-- The `winapi` macro `MAKELANGID(primary, sub)`: the sub-language code in
the high bits (shifted left by 10) combined with the primary language code. -/
def MAKELANGID (primary sub : Nat) : Nat := (sub <<< 10) ||| primary

/-- The resource descriptor built by `main` on a Windows target
(`build.rs` lines 5-16), with the four metadata entries set in source
order. -/
def mainDescriptor : WindowsResource :=
  WindowsResource.new
    |>.set_icon "../../res/icon.ico"
    |>.set_language (MAKELANGID LANG_ENGLISH SUBLANG_ENGLISH_US)
    |>.set_manifest_file "../../res/manifest.xml"
    |>.set "CompanyName" "OFARCH S.A.S."
    |>.set "ProductName" "OFARCHDesk"
    |>.set "FileDescription" "OFARCH Soporte Remoto"
    |>.set "OriginalFilename" "OFARCHDesk.exe"

/-- How the build-script process ends: returning normally from `main`
(the build then proceeds and the process exits with code 0), calling
`std::process::exit` with an explicit code, or panicking (the `unwrap` on the
stderr write), which aborts without reaching any exit call. -/
inductive Termination
  | normal
  | exited (code : Nat)
  | panicked
deriving DecidableEq, Repr

/-- The exit code of the build-script process for a given termination:
a normal return from `main` yields 0, an explicit exit yields its code, and a
panic yields no ordinary exit code. -/
def exitCode : Termination → Option Nat
  | .normal => some 0
  | .exited c => some c
  | .panicked => none

/-- Everything observable about one run of the build script: how it
terminated, what it wrote to stderr and stdout, and the descriptors it
submitted to the compilation step, in order of submission. -/
structure BuildOutcome where
  termination : Termination
  stderrOut : String
  stdoutOut : String
  submitted : List WindowsResource
deriving DecidableEq, Repr

/-- Shallow embedding of `main` (`build.rs` lines 1-23).  `compile` stands for
the external `winres` compilation step, returning `Except.error e` when
resource compilation fails with message `e`.  `stderrWriteOk` records whether
the `write!` to stderr succeeds; its result is unwrapped in the source, so a
failed write panics before the exit call is reached. -/
def buildMain (platform : Platform) (compile : WindowsResource → Except String Unit)
    (stderrWriteOk : Bool) : BuildOutcome :=
  match platform with
  | .other =>
    { termination := .normal, stderrOut := "", stdoutOut := "", submitted := [] }
  | .windows =>
    let res := mainDescriptor
    match compile res with
    | .ok _ =>
      { termination := .normal, stderrOut := "", stdoutOut := "", submitted := [res] }
    | .error e =>
      if stderrWriteOk then
        { termination := .exited 1, stderrOut := e, stdoutOut := "", submitted := [res] }
      else
        { termination := .panicked, stderrOut := "", stdoutOut := "", submitted := [res] }

/-- A descriptor is fully populated when the icon and manifest paths are set
and all four metadata keys are present in the mapping. -/
def WindowsResource.fullyPopulated (r : WindowsResource) : Bool :=
  r.icon.isSome && r.manifestFile.isSome &&
    (["CompanyName", "ProductName", "FileDescription", "OriginalFilename"].all
      (fun k => r.properties.any (fun kv => kv.1 = k)))

/-- Modelled from the spec: a filesystem, assigning contents (byte lists) to
the paths at which a file exists. -/
def FileSystem := String → Option (List Nat)

/-- Byte encoding of a string, used by the modelled resource section. -/
def encodeString (s : String) : List Nat := s.toList.map Char.toNat

/-- Modelled from the spec: the resource section that the external compilation
step embeds into the artifact, a deterministic function of the descriptor and
of the contents of the icon and manifest files. -/
def sectionBytes (r : WindowsResource) (iconBytes manifestBytes : List Nat) : List Nat :=
  [r.languageId] ++ iconBytes ++ manifestBytes ++
    r.properties.foldl (fun acc kv => acc ++ encodeString kv.1 ++ encodeString kv.2) []

/-- Modelled from the spec: the external resource-compilation step.  It reads
the icon and manifest files named by the descriptor from the filesystem and
produces the resource section; when either named file does not exist it fails
with a non-empty error message naming the missing path. -/
def specCompile (fs : FileSystem) (r : WindowsResource) : Except String (List Nat) :=
  let read : Option String → Except String (List Nat) := fun p =>
    match p with
    | none => .ok []
    | some path =>
      match fs path with
      | some bytes => .ok bytes
      | none => .error (path ++ ": file not found")
  match read r.icon with
  | .error e => .error e
  | .ok iconBytes =>
    match read r.manifestFile with
    | .error e => .error e
    | .ok manifestBytes => .ok (sectionBytes r iconBytes manifestBytes)

/-- The modelled compilation step with its output discarded, as the build
script consumes it (`res.compile()` returns success or an error). -/
def specCompileUnit (fs : FileSystem) (r : WindowsResource) : Except String Unit :=
  (specCompile fs r).map (fun _ => ())

/-- Whether the string `suf` is a suffix of the string `s`, computed over the
character lists so that it fully evaluates. -/
def hasSuffix (s suf : String) : Bool :=
  List.isSuffixOf suf.toList s.toList

/-- Whether a path is relative: non-empty and not starting with a path
separator. -/
def isRelativePath (s : String) : Bool :=
  match s.toList with
  | [] => false
  | c :: _ => c != '/' && c != '\\'

/-- C1: on a non-Windows target the embedding step performs no action at all:
no descriptor is submitted to the compilation step, nothing is written to
stderr or stdout, `main` returns normally and the build exits with code 0,
for every behaviour of the compilation step and of the stderr write — in
particular regardless of whether the icon or manifest files exist. -/
theorem nonWindows_noop (compile : WindowsResource → Except String Unit)
    (stderrWriteOk : Bool) :
    buildMain .other compile stderrWriteOk =
      { termination := .normal, stderrOut := "", stdoutOut := "", submitted := [] } ∧
    exitCode (buildMain .other compile stderrWriteOk).termination = some 0 :=
  ⟨rfl, rfl⟩

/-- C2: on a Windows build whose stderr write succeeds, a compilation error
with message `e` makes the script write exactly `e` to stderr and exit with
code 1, and a compilation success makes `main` return normally so the build
continues with exit code 0: an error is raised iff compilation fails. -/
theorem windows_error_iff_exit (compile : WindowsResource → Except String Unit)
    (e : String) :
    (compile mainDescriptor = .error e →
      (buildMain .windows compile true).termination = .exited 1 ∧
      (buildMain .windows compile true).stderrOut = e ∧
      exitCode (buildMain .windows compile true).termination = some 1) ∧
    (compile mainDescriptor = .ok () →
      (buildMain .windows compile true).termination = .normal ∧
      exitCode (buildMain .windows compile true).termination = some 0) := by
  constructor
  · intro h
    simp [buildMain, h, exitCode]
  · intro h
    simp [buildMain, h, exitCode]

/-- Witness for C2 at two concrete compilation steps: one failing with the
message "boom" and one succeeding. -/
theorem windows_error_iff_exit_witness :
    ((buildMain .windows (fun _ => .error "boom") true).termination = .exited 1 ∧
     (buildMain .windows (fun _ => .error "boom") true).stderrOut = "boom" ∧
     exitCode (buildMain .windows (fun _ => .error "boom") true).termination = some 1) ∧
    ((buildMain .windows (fun _ => .ok ()) true).termination = .normal ∧
     exitCode (buildMain .windows (fun _ => .ok ()) true).termination = some 0) :=
  ⟨(windows_error_iff_exit (fun _ => .error "boom") "boom").1 rfl,
   (windows_error_iff_exit (fun _ => .ok ()) "boom").2 rfl⟩

/-- C3: the metadata mapping of the submitted descriptor is exactly the four
entries CompanyName, ProductName, FileDescription, OriginalFilename, in that
order, each value matching its literal constant. -/
theorem metadata_exact :
    mainDescriptor.properties =
      [("CompanyName", "OFARCH S.A.S."),
       ("ProductName", "OFARCHDesk"),
       ("FileDescription", "OFARCH Soporte Remoto"),
       ("OriginalFilename", "OFARCHDesk.exe")] := by
  decide

/-- C4: on a Windows build where the icon path or the manifest path names a
file that does not exist in the filesystem, the build exits with code 1 and
the message written to stderr is non-empty. -/
theorem missing_file_fails (fs : FileSystem)
    (h : fs "../../res/icon.ico" = none ∨ fs "../../res/manifest.xml" = none) :
    (buildMain .windows (specCompileUnit fs) true).termination = .exited 1 ∧
    (buildMain .windows (specCompileUnit fs) true).stderrOut ≠ "" := by
  have hicon : mainDescriptor.icon = some "../../res/icon.ico" := rfl
  have hman : mainDescriptor.manifestFile = some "../../res/manifest.xml" := rfl
  rcases h with h | h
  · simp [buildMain, specCompileUnit, specCompile, hicon, hman, h]
    decide
  · cases hi : fs "../../res/icon.ico" with
    | none =>
      simp [buildMain, specCompileUnit, specCompile, hicon, hman, hi]
      decide
    | some bytes =>
      simp [buildMain, specCompileUnit, specCompile, hicon, hman, hi, h]
      decide

/-- Witness for C4 at the empty filesystem, where neither file exists. -/
theorem missing_file_fails_witness :
    (buildMain .windows (specCompileUnit (fun _ => none)) true).termination = .exited 1 ∧
    (buildMain .windows (specCompileUnit (fun _ => none)) true).stderrOut ≠ "" :=
  missing_file_fails (fun _ => none) (Or.inl rfl)

/-- C5: the language identifier of the submitted descriptor is
MAKELANGID applied to the English primary language code and the US-English
sub-code, which is the locale value 1033 (0x0409). -/
theorem language_is_english_us :
    mainDescriptor.languageId = MAKELANGID LANG_ENGLISH SUBLANG_ENGLISH_US ∧
    MAKELANGID LANG_ENGLISH SUBLANG_ENGLISH_US = 1033 := by
  decide

/-- C6: the descriptor carries the icon path "../../res/icon.ico" and the
manifest path "../../res/manifest.xml"; the former is a relative path to a
`.ico` file and the latter a relative path to an `.xml` manifest. -/
theorem paths_relative :
    mainDescriptor.icon = some "../../res/icon.ico" ∧
    mainDescriptor.manifestFile = some "../../res/manifest.xml" ∧
    hasSuffix "../../res/icon.ico" ".ico" = true ∧
    hasSuffix "../../res/manifest.xml" ".xml" = true ∧
    isRelativePath "../../res/icon.ico" = true ∧
    isRelativePath "../../res/manifest.xml" = true := by
  decide

/-- C7: on every Windows build the compilation step is invoked exactly once,
on the fully populated descriptor (icon and manifest set, all four metadata
keys present), whatever the compilation step and the stderr write do: no
second attempt or recovery happens on failure. -/
theorem compile_invoked_once (compile : WindowsResource → Except String Unit)
    (stderrWriteOk : Bool) :
    (buildMain .windows compile stderrWriteOk).submitted = [mainDescriptor] ∧
    mainDescriptor.fullyPopulated = true := by
  refine ⟨?_, by decide⟩
  cases h : compile mainDescriptor <;> cases stderrWriteOk <;> simp [buildMain, h]

/-- C8: the modelled resource section is a deterministic function of the
descriptor and of the contents of the icon and manifest files: two
filesystems agreeing on those two paths yield identical compilation results,
so repeated builds with identical inputs produce byte-identical sections. -/
theorem section_deterministic (fs1 fs2 : FileSystem)
    (hicon : fs1 "../../res/icon.ico" = fs2 "../../res/icon.ico")
    (hman : fs1 "../../res/manifest.xml" = fs2 "../../res/manifest.xml") :
    specCompile fs1 mainDescriptor = specCompile fs2 mainDescriptor := by
  have h1 : mainDescriptor.icon = some "../../res/icon.ico" := rfl
  have h2 : mainDescriptor.manifestFile = some "../../res/manifest.xml" := rfl
  simp only [specCompile, h1, h2, hicon, hman]

/-- Witness for C8: two filesystems that agree on the icon and manifest paths
but differ elsewhere produce the same resource section. -/
theorem section_deterministic_witness :
    specCompile
        (fun p => if p = "../../res/icon.ico" then some [1]
                  else if p = "../../res/manifest.xml" then some [2] else none)
        mainDescriptor =
      specCompile
        (fun p => if p = "../../res/icon.ico" then some [1]
                  else if p = "../../res/manifest.xml" then some [2] else some [9])
        mainDescriptor :=
  section_deterministic _ _ (by decide) (by decide)

/-- C9: on a Windows build where compilation fails and the write of the error
message to stderr itself fails, the script panics on the unwrapped write
result instead of reaching the exit call: the process does not exit with code
1 and has no ordinary exit code. -/
theorem stderr_write_failure_panics (compile : WindowsResource → Except String Unit)
    (e : String) (h : compile mainDescriptor = .error e) :
    (buildMain .windows compile false).termination = .panicked ∧
    (buildMain .windows compile false).termination ≠ .exited 1 ∧
    exitCode (buildMain .windows compile false).termination = none := by
  simp [buildMain, h, exitCode]

/-- Witness for C9 at a concrete compilation step failing with "boom". -/
theorem stderr_write_failure_panics_witness :
    (buildMain .windows (fun _ => .error "boom") false).termination = .panicked ∧
    (buildMain .windows (fun _ => .error "boom") false).termination ≠ .exited 1 ∧
    exitCode (buildMain .windows (fun _ => .error "boom") false).termination = none :=
  stderr_write_failure_panics (fun _ => .error "boom") "boom" rfl

/-- C10: on every build the script writes nothing to stdout, on every run
that returns normally it writes nothing to stderr, and any non-empty stderr
output can only arise on a Windows build whose compilation step failed. -/
theorem silent_success (platform : Platform)
    (compile : WindowsResource → Except String Unit) (stderrWriteOk : Bool) :
    (buildMain platform compile stderrWriteOk).stdoutOut = "" ∧
    ((buildMain platform compile stderrWriteOk).termination = .normal →
      (buildMain platform compile stderrWriteOk).stderrOut = "") ∧
    ((buildMain platform compile stderrWriteOk).stderrOut ≠ "" →
      platform = .windows ∧ ∃ e, compile mainDescriptor = .error e) := by
  cases platform with
  | other => exact ⟨rfl, fun _ => rfl, fun h => absurd rfl h⟩
  | windows =>
    cases h : compile mainDescriptor with
    | ok u =>
      cases u
      exact ⟨by simp [buildMain, h], fun _ => by simp [buildMain, h],
             fun hne => absurd (by simp [buildMain, h]) hne⟩
    | error e =>
      cases stderrWriteOk with
      | false =>
        refine ⟨by simp [buildMain, h], fun hn => by simp [buildMain, h], fun hne => ?_⟩
        exact absurd (by simp [buildMain, h]) hne
      | true =>
        refine ⟨by simp [buildMain, h], fun hn => ?_, fun hne => ⟨rfl, ⟨e, rfl⟩⟩⟩
        exact absurd hn (by simp [buildMain, h])

/-- Witness for C10 at concrete inputs: the normal-termination hypothesis is
discharged on a succeeding compilation step and the non-empty-stderr
hypothesis on a failing one. -/
theorem silent_success_witness :
    (buildMain .windows (fun _ => .ok ()) true).stderrOut = "" ∧
    (Platform.windows = Platform.windows ∧
      ∃ e, (fun _ : WindowsResource => (.error "boom" : Except String Unit))
        mainDescriptor = .error e) :=
  ⟨(silent_success .windows (fun _ => .ok ()) true).2.1 (by decide),
   (silent_success .windows (fun _ => .error "boom") true).2.2 (by decide)⟩

end BuildRs
